import Mathlib

/-!
Shallow embedding of `src/src/utils/image-bitmap.js` (the jimp bitmap I/O
layer) together with the constants it uses from `src/unnamed/part_000`
(the constants module).  The external codec primitives consumed by this
module (pngjs, jpeg-js, bmp-js, utif, omggif, exif metadata reading,
byte sniffing, the path-extension mime table, and the Jimp entity's
mirror / rotate / composite capabilities) are black boxes at the module
boundary; they are modelled as an explicit environment record of
function parameters.
-/

/-- Byte buffers are modelled as lists of byte values. -/
abbrev Bytes := List Nat

/-- The canonical bitmap shape `\x7b data, width, height \x7d`. -/
structure Bitmap where
  data : List Nat
  width : Nat
  height : Nat
deriving DecidableEq

/-- An error raised by an external codec primitive, modelled by its message. -/
structure CodecErr where
  message : String
deriving DecidableEq

/-- The tag record produced by the exif metadata primitive; only the
`Orientation` tag is consulted by this module. -/
structure ExifTags where
  Orientation : Option Int
deriving DecidableEq

/-- The result of the exif metadata primitive (`EXIFParser.create(data).parse()`). -/
structure ExifData where
  tags : Option ExifTags
deriving DecidableEq

/-- The result object of the byte-sniffing primitive (`fileType(buffer)`);
this module only reads its `mime` field. -/
structure FileTypeResult where
  ext : String
  mime : String
deriving DecidableEq

/-- The codec-specific descriptor built in the PNG encode branch
(`new PNG(\x7b...\x7d)`). -/
structure PngOptions where
  width : Nat
  height : Nat
  bitDepth : Nat
  deflateLevel : Int
  deflateStrategy : Int
  filterType : Int
  colorType : Nat
  inputHasAlpha : Bool
deriving DecidableEq

/-- The mutable fields of the Jimp image entity that image-bitmap.js reads or
writes: `this.bitmap`, `this._originalMime`, `this._exif`, `this._rgba`,
`this._background`, `this._quality`, `this._deflateLevel`,
`this._deflateStrategy`, `this._filterType`. -/
structure JimpState where
  bitmap : Option Bitmap
  originalMime : Option String
  exif : Option ExifData
  rgba : Bool
  background : Nat
  quality : Int
  deflateLevel : Int
  deflateStrategy : Int
  filterType : Int
deriving DecidableEq

/-- The black-box environment: every external primitive invoked by
image-bitmap.js, as an abstract function.  Decode-style primitives may
throw, modelled with `Except`; encode-style primitives return bytes. -/
structure Env where
  fileType : Bytes → Option FileTypeResult
  getType : String → Option String
  pngDecode : Bytes → Except CodecErr Bitmap
  jpegDecode : Bytes → Except CodecErr Bitmap
  tiffDecode : Bytes → Except CodecErr Bitmap
  bmpDecode : Bytes → Except CodecErr Bitmap
  gifDecode : Bytes → Except CodecErr Bitmap
  exifParse : Bytes → Except CodecErr ExifData
  mirror : Bool → Bool → Bitmap → Except CodecErr Bitmap
  rotate : Int → Bool → Bitmap → Except CodecErr Bitmap
  pngEncode : PngOptions → List Nat → Bytes
  jpegEncode : Bitmap → Int → Bytes
  bmpEncode : Bitmap → Bytes
  tiffEncode : List Nat → Nat → Nat → Bytes
  composite : Nat → Nat → Nat → Bitmap → Bitmap

/-! Constants from `src/unnamed/part_000` used by this module. -/

/-- `constants.AUTO` — the numeric auto-detect sentinel. -/
def AUTO : Int := -1

def MIME_PNG : String := "image/png"

def MIME_TIFF : String := "image/tiff"

def MIME_JPEG : String := "image/jpeg"

def MIME_JGD : String := "image/jgd"

def MIME_BMP : String := "image/bmp"

def MIME_X_MS_BMP : String := "image/x-ms-bmp"

def MIME_GIF : String := "image/gif"

/-- ASCII lowering of one character, as JavaScript `toLowerCase` behaves on
the ASCII mime tokens this module compares against. -/
def asciiLowerChar (c : Char) : Char :=
  if 65 ≤ c.toNat ∧ c.toNat ≤ 90 then Char.ofNat (c.toNat + 32) else c

/-- JavaScript `String.prototype.toLowerCase`, restricted to ASCII content. -/
def jsToLowerCase (s : String) : String :=
  String.mk (s.data.map asciiLowerChar)

/-- Errors surfaced through the Node-style callbacks of this module.  The
constructors record which code path produced the error: a plain `Error` from
sniffing failure, the unsupported-mime message (`throwError` in parseBitmap,
a raw string in getBuffer), `throwError` argument validation, or a rethrown
codec exception. -/
inductive JError where
  | unknownFormat (message : String)
  | unsupportedMime (message : String)
  | invalidArg (message : String)
  | codecError (e : CodecErr)
deriving DecidableEq

/-- String interpolation of an optional path, as JavaScript renders it inside
`'Could not find MIME for Buffer <' + path + '>'` (an absent argument prints
as `undefined`). -/
def pathToString : Option String → String
  | none => "undefined"
  | some p => p

/-- Embedding of `getMIMEFromBuffer(buffer, path)`: consult the byte-sniffing
primitive first and return its mime when it yields a result; otherwise, when a
truthy path was supplied (JavaScript: the empty string is falsy), consult the
extension table; otherwise null. -/
def getMIMEFromBuffer (env : Env) (buffer : Bytes) (path : Option String) :
    Option String :=
  match env.fileType buffer with
  | some ft => some ft.mime
  | none =>
    match path with
    | some p => if p = "" then none else env.getType p
    | none => none

/-- Modelled from the spec: the Jimp entity's `getMIME` accessor (defined
outside this module) returns the format identifier recorded at decode time,
i.e. `this._originalMime`. -/
def getMIME (st : JimpState) : Option String := st.originalMime

/-- An abstract image operation invoked by the EXIF normalizer: the entity's
`mirror(horizontal, vertical)` and `rotate(degrees, resizeCanvas)`
capabilities. -/
inductive ImgOp where
  | mirror (h v : Bool)
  | rotate (deg : Int) (resize : Bool)
deriving DecidableEq

/-- Dispatch one abstract operation to the matching capability. -/
def capCall (env : Env) (op : ImgOp) (b : Bitmap) : Except CodecErr Bitmap :=
  match op with
  | .mirror h v => env.mirror h v b
  | .rotate d r => env.rotate d r b

/-- Apply one abstract image operation to the entity: the capability operates
on the entity's bitmap, replacing it; invoking it without a decoded bitmap
fails like the JavaScript method would on an undefined bitmap. -/
def applyImgOp (env : Env) (op : ImgOp) (img : JimpState) :
    Except CodecErr JimpState :=
  match img.bitmap with
  | none => .error { message := "bitmap is not defined" }
  | some b =>
    match capCall env op b with
    | .ok b2 => .ok { img with bitmap := some b2 }
    | .error e => .error e

/-- One chained capability call, `img.op(...)`: on success the mutated entity,
on a throw the entity as it was together with the exception. -/
def chain1 (env : Env) (op : ImgOp) (img : JimpState) :
    JimpState × Option CodecErr :=
  match applyImgOp env op img with
  | .ok i => (i, none)
  | .error e => (img, some e)

/-- Two chained capability calls, `img.op1(...).op2(...)`: the second call
runs only when the first succeeded; a throw stops the chain and leaves the
mutations made so far in place. -/
def chain2 (env : Env) (op1 op2 : ImgOp) (img : JimpState) :
    JimpState × Option CodecErr :=
  match applyImgOp env op1 img with
  | .error e => (img, some e)
  | .ok i =>
    match applyImgOp env op2 i with
    | .error e => (i, some e)
    | .ok i2 => (i2, none)

/-- Run a list of abstract image operations in sequence, stopping at the
first exception and keeping the mutations applied before it. -/
def applyOps (env : Env) : List ImgOp → JimpState → JimpState × Option CodecErr
  | [], img => (img, none)
  | op :: rest, img =>
    match applyImgOp env op img with
    | .ok i => applyOps env rest i
    | .error e => (img, some e)

/-- The correction table of the spec (§4.4), keyed by the EXIF orientation
code: the sequence of mirror/rotate calls each code demands.  Codes outside
the table (including 1) demand no correction. -/
def exifCorrectionOps (o : Int) : List ImgOp :=
  if o = 2 then [.mirror true false]
  else if o = 3 then [.rotate 180 false]
  else if o = 4 then [.mirror false true]
  else if o = 5 then [.rotate (-90) false, .mirror true false]
  else if o = 6 then [.rotate (-90) false]
  else if o = 7 then [.rotate 90 false, .mirror true false]
  else if o = 8 then [.rotate (-270) false]
  else []

/-- The body of `exifRotate`'s switch on the orientation code.  The `o = 0`
branch models the JavaScript truthiness guard `exif.tags.Orientation` in
front of the switch: a zero code is falsy and the switch is not entered. -/
def exifOrientationSwitch (env : Env) (o : Int) (img : JimpState) :
    JimpState × Option CodecErr :=
  if o = 0 then (img, none)
  else if o = 1 then (img, none)
  else if o = 2 then chain1 env (.mirror true false) img
  else if o = 3 then chain1 env (.rotate 180 false) img
  else if o = 4 then chain1 env (.mirror false true) img
  else if o = 5 then chain2 env (.rotate (-90) false) (.mirror true false) img
  else if o = 6 then chain1 env (.rotate (-90) false) img
  else if o = 7 then chain2 env (.rotate 90 false) (.mirror true false) img
  else if o = 8 then chain1 env (.rotate (-270) false) img
  else (img, none)

/-- Embedding of `exifRotate(img)`: reads `img._exif.tags.Orientation` behind
a JavaScript truthiness guard (absent metadata, absent tags, absent or zero
orientation all skip the switch) and dispatches the switch on the code.
Returns the entity after the applied operations together with the exception
of a capability call, if one threw (the caller's try/catch swallows it). -/
def exifRotate (env : Env) (img : JimpState) : JimpState × Option CodecErr :=
  match img.exif with
  | none => (img, none)
  | some ex =>
    match ex.tags with
    | none => (img, none)
    | some tags =>
      match tags.Orientation with
      | none => (img, none)
      | some o => exifOrientationSwitch env o img

/-- Modelled from the spec: the Channel-Order Corrector of `./abgr` (not part
of this module's sources) byte-swaps each 4-byte pixel between the canonical
RGBA order and the alternate ABGR-style order, in place, and is its own
inverse.  This permutes every aligned 4-byte group and leaves a ragged tail
unchanged. -/
def agbrData : List Nat → List Nat
  | r :: g :: b :: a :: rest => a :: b :: g :: r :: agbrData rest
  | rest => rest

/-- Modelled from the spec: `fromAGBR(this)` converts the entity's bitmap from
the alternate channel order back to canonical order, in place. -/
def fromAGBR (st : JimpState) : JimpState :=
  { st with bitmap := st.bitmap.map fun bm => { bm with data := agbrData bm.data } }

/-- Modelled from the spec: `toAGBR(this)` converts the entity's bitmap from
canonical order to the alternate channel order, in place (the same involutive
byte swap). -/
def toAGBR (st : JimpState) : JimpState :=
  { st with bitmap := st.bitmap.map fun bm => { bm with data := agbrData bm.data } }

/-- Embedding of `parseBitmap(data, path, cb)`.  The first component is the
list of callback invocations, in order: `none` stands for an invocation with
a null error (`cb.call(this, null, this)`), `some e` for an invocation
carrying the error `e`.  The second component is the final entity state.
Each decoder runs inside the one try/catch; note that the catch clause calls
the callback with the error and then falls through to the unconditional
success call on the next line. -/
def parseBitmap (env : Env) (st : JimpState) (data : Bytes) (path : Option String) :
    List (Option JError) × JimpState :=
  match getMIMEFromBuffer env data path with
  | none =>
    ([some (.unknownFormat ("Could not find MIME for Buffer <" ++ pathToString path ++ ">"))], st)
  | some mime =>
    let st1 : JimpState := { st with originalMime := some (jsToLowerCase mime) }
    let m := jsToLowerCase mime
    if m = MIME_PNG then
      match env.pngDecode data with
      | .ok png => ([none], { st1 with bitmap := some png })
      | .error e => ([some (.codecError e), none], st1)
    else if m = MIME_JPEG then
      match env.jpegDecode data with
      | .error e => ([some (.codecError e), none], st1)
      | .ok bmp =>
        let st2 : JimpState := { st1 with bitmap := some bmp }
        match env.exifParse data with
        | .error _ => ([none], st2)
        | .ok ex => ([none], (exifRotate env { st2 with exif := some ex }).1)
    else if m = MIME_TIFF then
      match env.tiffDecode data with
      | .ok bmp => ([none], { st1 with bitmap := some bmp })
      | .error e => ([some (.codecError e), none], st1)
    else if m = MIME_BMP ∨ m = MIME_X_MS_BMP then
      match env.bmpDecode data with
      | .ok bmp => ([none], fromAGBR { st1 with bitmap := some bmp })
      | .error _ => ([none], st1)
    else if m = MIME_GIF then
      match env.gifDecode data with
      | .ok bmp => ([none], { st1 with bitmap := some bmp })
      | .error e => ([some (.codecError e), none], st1)
    else
      ([some (.unsupportedMime ("Unsupported MIME type: " ++ mime))], st1)

/-- The entity's bitmap where the encode paths read it; the source assumes a
decoded bitmap is present there (reading fields of an undefined bitmap would
throw in JavaScript), so an absent bitmap is given an empty placeholder. -/
def bitmapOrEmpty (st : JimpState) : Bitmap :=
  st.bitmap.getD { data := [], width := 0, height := 0 }

/-- Embedding of `compositeBitmapOverBackground(Jimp, image)`: builds a fresh
entity of the same dimensions filled with the background color and composites
the image over it, through the abstract constructor/composite capability. -/
def compositeBitmapOverBackground (env : Env) (st : JimpState) : Bitmap :=
  env.composite (bitmapOrEmpty st).width (bitmapOrEmpty st).height st.background
    (bitmapOrEmpty st)

/-- A JavaScript value passed as the `mime` argument of `getBuffer`: a
number, a string, or anything else (collapsed to `undef`). -/
inductive JSVal where
  | num (n : Int)
  | str (s : String)
  | undef
deriving DecidableEq

/-- Embedding of `getBuffer(mime, cb)` on the cb-present path (the claims all
concern calls with a completion handler supplied).  The first component is
the single callback invocation: the encoded bytes, or the error it was called
with.  The second component is the entity state after the call. -/
def getBuffer (env : Env) (st : JimpState) (mimeArg : JSVal) :
    Except JError Bytes × JimpState :=
  let mime : JSVal :=
    if mimeArg = .num AUTO then
      match getMIME st with
      | some s => .str s
      | none => .undef
    else mimeArg
  match mime with
  | .str s =>
    let low := jsToLowerCase s
    if low = MIME_PNG then
      let bm := bitmapOrEmpty st
      let png : PngOptions :=
        { width := bm.width, height := bm.height, bitDepth := 8,
          deflateLevel := st.deflateLevel, deflateStrategy := st.deflateStrategy,
          filterType := st.filterType, colorType := if st.rgba then 6 else 2,
          inputHasAlpha := true }
      let pngData := if st.rgba then bm.data
        else (compositeBitmapOverBackground env st).data
      (.ok (env.pngEncode png pngData), st)
    else if low = MIME_JPEG then
      (.ok (env.jpegEncode (compositeBitmapOverBackground env st) st.quality), st)
    else if low = MIME_BMP ∨ low = MIME_X_MS_BMP then
      let st2 := toAGBR st
      (.ok (env.bmpEncode (compositeBitmapOverBackground env st2)), st2)
    else if low = MIME_TIFF then
      let c := compositeBitmapOverBackground env st
      (.ok (env.tiffEncode c.data c.width c.height), st)
    else
      (.error (.unsupportedMime ("Unsupported MIME type: " ++ s)), st)
  | _ => (.error (.invalidArg "mime must be a string"), st)

/-- The mime tokens that have an encode branch in `getBuffer`'s dispatch. -/
def encodeDispatchTokens : List String :=
  [MIME_PNG, MIME_JPEG, MIME_BMP, MIME_X_MS_BMP, MIME_TIFF]

/-- Whether a getBuffer outcome is the InvalidArgument error kind. -/
def resultIsInvalidArg : Except JError Bytes → Bool
  | .error (.invalidArg _) => true
  | _ => false

/-! Concrete sample states and environments used to evaluate the model. -/

/-- A 1×1 sample bitmap. -/
def bm1 : Bitmap := { data := [10, 20, 30, 40], width := 1, height := 1 }

/-- A freshly constructed entity, with the field defaults the Jimp
constructor uses before any decode. -/
def st0 : JimpState :=
  { bitmap := none, originalMime := none, exif := none, rgba := true,
    background := 0, quality := 100, deflateLevel := 9, deflateStrategy := 3,
    filterType := -1 }

/-- An entity holding a decoded sample bitmap. -/
def stBm : JimpState := { st0 with bitmap := some bm1 }

/-- An entity whose recorded decode-time format is PNG. -/
def stRec : JimpState := { st0 with originalMime := some MIME_PNG }

/-- A baseline environment: byte sniffing and the extension table yield
nothing, decodes succeed with the sample bitmap, exif metadata is absent,
capabilities succeed, encoders return fixed buffers. -/
def envBase : Env :=
  { fileType := fun _ => none
    getType := fun _ => none
    pngDecode := fun _ => .ok bm1
    jpegDecode := fun _ => .ok bm1
    tiffDecode := fun _ => .ok bm1
    bmpDecode := fun _ => .ok bm1
    gifDecode := fun _ => .ok bm1
    exifParse := fun _ => .error { message := "no exif" }
    mirror := fun _ _ b => .ok b
    rotate := fun _ _ b => .ok b
    pngEncode := fun _ _ => [1]
    jpegEncode := fun _ _ => [2]
    bmpEncode := fun _ => [3]
    tiffEncode := fun _ _ _ => [4]
    composite := fun _ _ _ b => b }

/-- Bytes sniff as PNG, but the PNG decode primitive throws. -/
def envPngSniffFail : Env :=
  { envBase with
    fileType := fun _ => some { ext := "png", mime := "image/png" }
    pngDecode := fun _ => .error { message := "Invalid PNG" } }

/-- Bytes sniff as BMP, but the BMP decode primitive throws. -/
def envBmpSniffFail : Env :=
  { envBase with
    fileType := fun _ => some { ext := "bmp", mime := "image/bmp" }
    bmpDecode := fun _ => .error { message := "bad bmp" } }

/-- Bytes sniff as JPEG and the JPEG decode succeeds; the exif metadata
primitive throws. -/
def envJpegSniff : Env :=
  { envBase with
    fileType := fun _ => some { ext := "jpg", mime := "image/jpeg" } }

/-- Byte sniffing yields nothing, but the extension table resolves paths to
JPEG. -/
def envExtOnly : Env :=
  { envBase with getType := fun _ => some "image/jpeg" }

/-- An entity with a decoded bitmap and exif metadata carrying orientation
code 6. -/
def imgOr6 : JimpState :=
  { st0 with
    bitmap := some bm1,
    exif := some { tags := some { Orientation := some 6 } } }

/-! Helper lemmas. -/

/-- One chained capability call is the singleton run of the operation list. -/
theorem chain1_eq_applyOps (env : Env) (op : ImgOp) (img : JimpState) :
    chain1 env op img = applyOps env [op] img := by
  unfold chain1 applyOps
  cases h : applyImgOp env op img <;> simp [h, applyOps]

/-- Two chained capability calls are the two-element run of the operation
list. -/
theorem chain2_eq_applyOps (env : Env) (op1 op2 : ImgOp) (img : JimpState) :
    chain2 env op1 op2 img = applyOps env [op1, op2] img := by
  unfold chain2 applyOps
  cases h1 : applyImgOp env op1 img with
  | error e => simp [h1]
  | ok i =>
    simp only [h1]
    cases h2 : applyImgOp env op2 i <;> simp [h2, applyOps]

/-- A capability call only replaces the bitmap; the recorded mime survives. -/
theorem applyImgOp_originalMime (env : Env) (op : ImgOp) (img i : JimpState)
    (h : applyImgOp env op img = .ok i) : i.originalMime = img.originalMime := by
  unfold applyImgOp at h
  cases hbm : img.bitmap with
  | none => simp [hbm] at h
  | some b =>
    simp only [hbm] at h
    cases hc : capCall env op b with
    | ok b2 =>
      simp only [hc, Except.ok.injEq] at h
      rw [← h]
    | error e => simp [hc] at h

/-- One chained call preserves the recorded mime. -/
theorem chain1_originalMime (env : Env) (op : ImgOp) (img : JimpState) :
    (chain1 env op img).1.originalMime = img.originalMime := by
  unfold chain1
  cases h : applyImgOp env op img with
  | ok i => simpa using applyImgOp_originalMime env op img i h
  | error e => rfl

/-- Two chained calls preserve the recorded mime. -/
theorem chain2_originalMime (env : Env) (op1 op2 : ImgOp) (img : JimpState) :
    (chain2 env op1 op2 img).1.originalMime = img.originalMime := by
  unfold chain2
  cases h1 : applyImgOp env op1 img with
  | error e => rfl
  | ok i =>
    have ha := applyImgOp_originalMime env op1 img i h1
    cases h2 : applyImgOp env op2 i with
    | error e =>
      simp only [h2]
      simpa using ha
    | ok i2 =>
      have hb := applyImgOp_originalMime env op2 i i2 h2
      simp only [h2]
      simpa using hb.trans ha

/-- The orientation switch never touches the recorded mime. -/
theorem exifOrientationSwitch_originalMime (env : Env) (o : Int) (img : JimpState) :
    (exifOrientationSwitch env o img).1.originalMime = img.originalMime := by
  unfold exifOrientationSwitch
  split_ifs <;>
    first
      | rfl
      | exact chain1_originalMime env _ img
      | exact chain2_originalMime env _ _ img

/-- The exif normalizer never touches the recorded mime. -/
theorem exifRotate_originalMime (env : Env) (img : JimpState) :
    (exifRotate env img).1.originalMime = img.originalMime := by
  unfold exifRotate
  cases hx : img.exif with
  | none => rfl
  | some ex =>
    cases ht : ex.tags with
    | none => simp [ht]
    | some tags =>
      cases ho : tags.Orientation with
      | none => simp [ht, ho]
      | some o =>
        simp only [ht, ho]
        exact exifOrientationSwitch_originalMime env o img

/-- The orientation switch agrees with the spec's correction table run as an
operation list. -/
theorem exifOrientationSwitch_eq_table (env : Env) (o : Int) (img : JimpState) :
    exifOrientationSwitch env o img = applyOps env (exifCorrectionOps o) img := by
  unfold exifOrientationSwitch exifCorrectionOps
  split_ifs <;>
    first
      | rfl
      | omega
      | exact chain1_eq_applyOps env _ img
      | exact chain2_eq_applyOps env _ _ img

/-! Claim theorems. -/

/-- Claim C1 (code defect): when the decode primitive for a sniffed format
throws, parseBitmap's catch clause invokes the callback with the error and
then falls through to the unconditional success invocation on the next line,
so the callback runs twice — once with the error and once with a success
value — instead of exactly once.  Evaluated at a buffer sniffed as image/png
whose PNG decode primitive throws. -/
theorem parseBitmap_decode_throw_double_callback :
    (parseBitmap envPngSniffFail st0 [0] none).1 =
      [some (.codecError { message := "Invalid PNG" }), none] ∧
    (parseBitmap envPngSniffFail st0 [0] none).1.length = 2 := by
  constructor <;> rfl

/-- Claim C2: a buffer identified as BMP whose BMP decode primitive throws
still completes successfully — a single callback invocation with a null
error — with the bitmap left unset, rather than reporting the failure. -/
theorem parseBitmap_bmp_decode_failure_swallowed
    (env : Env) (st : JimpState) (data : Bytes) (path : Option String)
    (m : String) (e : CodecErr)
    (hm : getMIMEFromBuffer env data path = some m)
    (hlow : jsToLowerCase m = MIME_BMP ∨ jsToLowerCase m = MIME_X_MS_BMP)
    (hdec : env.bmpDecode data = .error e)
    (hbm : st.bitmap = none) :
    (parseBitmap env st data path).1 = [none] ∧
    (parseBitmap env st data path).2.bitmap = none := by
  unfold parseBitmap
  rcases hlow with h | h <;>
    simp [hm, h, hdec, hbm, MIME_PNG, MIME_JPEG, MIME_TIFF, MIME_BMP,
      MIME_X_MS_BMP, MIME_GIF]

/-- Claim C2 witness: concrete run with bytes sniffing as image/bmp and a
throwing BMP decode primitive. -/
theorem parseBitmap_bmp_decode_failure_swallowed_witness :
    (parseBitmap envBmpSniffFail st0 [0] none).1 = [none] ∧
    (parseBitmap envBmpSniffFail st0 [0] none).2.bitmap = none :=
  parseBitmap_bmp_decode_failure_swallowed envBmpSniffFail st0 [0] none
    "image/bmp" { message := "bad bmp" } rfl (Or.inl (by decide)) rfl rfl

/-- Claim C4: the exif normalizer applies exactly the spec's correction table
for each orientation code (2 mirror horizontal; 3 rotate 180; 4 mirror
vertical; 5 rotate -90 then mirror horizontal; 6 rotate -90; 7 rotate 90
then mirror horizontal; 8 rotate -270), and when the code is 1 or the
metadata is absent the entity is returned unchanged with no operation
applied. -/
theorem exifRotate_orientation_table (env : Env) (img : JimpState) :
    (∀ o : Int, ∀ ex : ExifData, img.exif = some ex →
        ex.tags = some { Orientation := some o } →
        exifRotate env img = applyOps env (exifCorrectionOps o) img) ∧
    (img.exif = none → exifRotate env img = (img, none)) ∧
    (∀ ex : ExifData, img.exif = some ex →
        ex.tags = some { Orientation := some 1 } →
        exifRotate env img = (img, none)) := by
  refine ⟨fun o ex hex ht => ?_, fun hN => ?_, fun ex hex ht => ?_⟩
  · unfold exifRotate
    simp only [hex, ht]
    exact exifOrientationSwitch_eq_table env o img
  · unfold exifRotate
    simp [hN]
  · unfold exifRotate
    simp only [hex, ht]
    unfold exifOrientationSwitch
    norm_num

/-- Claim C4 witness: orientation code 6 on a concrete entity yields exactly
the table's correction run. -/
theorem exifRotate_orientation_table_witness :
    exifRotate envBase imgOr6 = applyOps envBase (exifCorrectionOps 6) imgOr6 :=
  (exifRotate_orientation_table envBase imgOr6).1 6
    { tags := some { Orientation := some 6 } } rfl rfl

/-- Claim C7: encoding any entity to target format image/gif fails with the
unsupported-mime error (getBuffer has no GIF encode branch) and leaves the
entity unchanged. -/
theorem getBuffer_gif_unsupported (env : Env) (st : JimpState) :
    getBuffer env st (.str MIME_GIF) =
      (.error (.unsupportedMime ("Unsupported MIME type: " ++ MIME_GIF)), st) := by
  unfold getBuffer
  simp [MIME_PNG, MIME_JPEG, MIME_TIFF, MIME_BMP, MIME_X_MS_BMP, MIME_GIF,
    AUTO, jsToLowerCase, asciiLowerChar]

/-- Claim C3 counterexample: an empty-string target passes the
`typeof mime !== 'string'` check and falls through to the default dispatch
branch, failing with the unsupported-mime error — not with the
InvalidArgument error the claim asserts. -/
theorem getBuffer_empty_target_counterexample :
    (getBuffer envBase st0 (.str "")).1 =
      .error (.unsupportedMime "Unsupported MIME type: ") ∧
    resultIsInvalidArg (getBuffer envBase st0 (.str "")).1 = false := by
  constructor <;> rfl

/-- Claim C3 (amended): after AUTO substitution, a non-string target fails
with the InvalidArgument error `mime must be a string`; a string target whose
lowercasing is not one of the dispatch tokens — the empty string included —
instead reaches the default dispatch branch and fails with the
unsupported-mime error carrying the target. -/
theorem getBuffer_target_validation (env : Env) (st : JimpState) :
    ((getBuffer env st .undef).1 = .error (.invalidArg "mime must be a string")) ∧
    (∀ n : Int, n ≠ AUTO →
      (getBuffer env st (.num n)).1 = .error (.invalidArg "mime must be a string")) ∧
    (st.originalMime = none →
      (getBuffer env st (.num AUTO)).1 = .error (.invalidArg "mime must be a string")) ∧
    (∀ s : String, jsToLowerCase s ∉ encodeDispatchTokens →
      (getBuffer env st (.str s)).1 =
        .error (.unsupportedMime ("Unsupported MIME type: " ++ s))) := by
  refine ⟨rfl, fun n hn => ?_, fun hrec => ?_, fun s hs => ?_⟩
  · have hn2 : n ≠ -1 := by simpa [AUTO] using hn
    simp [getBuffer, AUTO, hn2]
  · simp [getBuffer, getMIME, hrec, AUTO]
  · simp only [encodeDispatchTokens, List.mem_cons, List.not_mem_nil, or_false,
      MIME_PNG, MIME_JPEG, MIME_BMP, MIME_X_MS_BMP, MIME_TIFF] at hs
    push_neg at hs
    obtain ⟨h1, h2, h3, h4, h5⟩ := hs
    simp [getBuffer, AUTO, MIME_PNG, MIME_JPEG, MIME_BMP, MIME_X_MS_BMP,
      MIME_TIFF, h1, h2, h3, h4, h5]

/-- Claim C3 witness: a numeric non-sentinel target fails with
InvalidArgument; an unrecognized string target fails with the
unsupported-mime error. -/
theorem getBuffer_target_validation_witness :
    (getBuffer envBase st0 (.num 7)).1 = .error (.invalidArg "mime must be a string") ∧
    (getBuffer envBase st0 (.str "image/webp")).1 =
      .error (.unsupportedMime ("Unsupported MIME type: " ++ "image/webp")) :=
  ⟨(getBuffer_target_validation envBase st0).2.1 7 (by decide),
   (getBuffer_target_validation envBase st0).2.2.2 "image/webp" (by decide)⟩

/-- Claim C5: for a buffer identified as JPEG whose JPEG decode succeeds, a
failure of the exif metadata parse (or of the subsequent orientation
normalization) never fails the decode: the callback is invoked exactly once
with a null error, and when the metadata parse failed the decoded bitmap is
delivered untouched. -/
theorem parseBitmap_jpeg_exif_best_effort
    (env : Env) (st : JimpState) (data : Bytes) (path : Option String)
    (m : String) (bmp : Bitmap)
    (hm : getMIMEFromBuffer env data path = some m)
    (hlow : jsToLowerCase m = MIME_JPEG)
    (hdec : env.jpegDecode data = .ok bmp) :
    (parseBitmap env st data path).1 = [none] ∧
    (∀ e : CodecErr, env.exifParse data = .error e →
      (parseBitmap env st data path).2.bitmap = some bmp) := by
  constructor
  · unfold parseBitmap
    cases hx : env.exifParse data <;>
      simp [hm, hlow, hdec, hx, MIME_PNG, MIME_JPEG]
  · intro e he
    unfold parseBitmap
    simp [hm, hlow, hdec, he, MIME_PNG, MIME_JPEG]

/-- Claim C5 witness: concrete run with bytes sniffing as image/jpeg, a
successful JPEG decode and a throwing exif metadata parse. -/
theorem parseBitmap_jpeg_exif_best_effort_witness :
    (parseBitmap envJpegSniff st0 [0] none).1 = [none] ∧
    (parseBitmap envJpegSniff st0 [0] none).2.bitmap = some bm1 :=
  ⟨(parseBitmap_jpeg_exif_best_effort envJpegSniff st0 [0] none
      "image/jpeg" bm1 rfl (by decide) rfl).1,
   (parseBitmap_jpeg_exif_best_effort envJpegSniff st0 [0] none
      "image/jpeg" bm1 rfl (by decide) rfl).2 { message := "no exif" } rfl⟩

/-- Claim C6: byte sniffing wins over any path hint; the path extension is
consulted only when byte sniffing yields nothing; and when the sniffer
resolves no mime at all, parseBitmap fails with the unknown-format error
carrying the offending path. -/
theorem format_sniffing_precedence (env : Env) (data : Bytes) (path : Option String) :
    (∀ ft : FileTypeResult, env.fileType data = some ft →
        getMIMEFromBuffer env data path = some ft.mime) ∧
    (∀ p : String, env.fileType data = none → path = some p → p ≠ "" →
        getMIMEFromBuffer env data path = env.getType p) ∧
    (∀ st : JimpState, getMIMEFromBuffer env data path = none →
        (parseBitmap env st data path).1 =
          [some (.unknownFormat
            ("Could not find MIME for Buffer <" ++ pathToString path ++ ">"))]) := by
  refine ⟨fun ft hft => ?_, fun p hft hp hne => ?_, fun st hmime => ?_⟩
  · simp [getMIMEFromBuffer, hft]
  · subst hp
    simp [getMIMEFromBuffer, hft, hne]
  · unfold parseBitmap
    simp [hmime]

/-- Claim C6 witness: a PNG-sniffing buffer ignores the .jpg path hint; a
sniff-less buffer defers to the extension table; a buffer with neither fails
with the unknown-format error carrying the path. -/
theorem format_sniffing_precedence_witness :
    getMIMEFromBuffer envPngSniffFail [0] (some "photo.jpg") = some "image/png" ∧
    getMIMEFromBuffer envExtOnly [0] (some "photo.jpg") = envExtOnly.getType "photo.jpg" ∧
    (parseBitmap envBase st0 [0] (some "file.xyz")).1 =
      [some (.unknownFormat
        ("Could not find MIME for Buffer <" ++ pathToString (some "file.xyz") ++ ">"))] :=
  ⟨(format_sniffing_precedence envPngSniffFail [0] (some "photo.jpg")).1
      { ext := "png", mime := "image/png" } rfl,
   (format_sniffing_precedence envExtOnly [0] (some "photo.jpg")).2.1
      "photo.jpg" rfl rfl (by decide),
   (format_sniffing_precedence envBase [0] (some "file.xyz")).2.2 st0 rfl⟩

/-- Claim C8: encoding with the numeric auto sentinel is identical — same
result, same final state — to encoding with the format identifier recorded
at decode time. -/
theorem getBuffer_auto_matches_recorded_format (env : Env) (st : JimpState)
    (f : String) (hf : st.originalMime = some f) :
    getBuffer env st (.num AUTO) = getBuffer env st (.str f) := by
  unfold getBuffer
  simp [getMIME, hf, AUTO]

/-- Claim C8 witness: auto-encoding an entity whose recorded format is PNG
equals encoding it to image/png. -/
theorem getBuffer_auto_matches_recorded_format_witness :
    getBuffer envBase stRec (.num AUTO) = getBuffer envBase stRec (.str MIME_PNG) :=
  getBuffer_auto_matches_recorded_format envBase stRec MIME_PNG rfl

/-- Claim C9: encoding to a BMP target (image/bmp or image/x-ms-bmp) applies
the canonical-to-alternate channel-order conversion to the source entity in
place before encoding — the encoder input is the flattened converted entity —
and the entity returned by the call is left in the alternate channel order. -/
theorem getBuffer_bmp_channel_order_side_effect (env : Env) (st : JimpState)
    (b : Bitmap) (hb : st.bitmap = some b) :
    ((getBuffer env st (.str MIME_BMP)).2 = toAGBR st ∧
     (getBuffer env st (.str MIME_X_MS_BMP)).2 = toAGBR st) ∧
    (toAGBR st).bitmap = some { b with data := agbrData b.data } ∧
    (getBuffer env st (.str MIME_BMP)).1 =
      .ok (env.bmpEncode (compositeBitmapOverBackground env (toAGBR st))) := by
  have hl1 : jsToLowerCase "image/bmp" = "image/bmp" := by decide
  have hl2 : jsToLowerCase "image/x-ms-bmp" = "image/x-ms-bmp" := by decide
  refine ⟨⟨?_, ?_⟩, ?_, ?_⟩
  · simp [getBuffer, AUTO, MIME_PNG, MIME_JPEG, MIME_BMP, MIME_X_MS_BMP,
      MIME_TIFF, hl1]
  · simp [getBuffer, AUTO, MIME_PNG, MIME_JPEG, MIME_BMP, MIME_X_MS_BMP,
      MIME_TIFF, hl2]
  · simp [toAGBR, hb]
  · simp [getBuffer, AUTO, MIME_PNG, MIME_JPEG, MIME_BMP, MIME_X_MS_BMP,
      MIME_TIFF, hl1]

/-- Claim C9 witness: concrete BMP-target encode of an entity holding the
sample bitmap. -/
theorem getBuffer_bmp_channel_order_side_effect_witness :
    ((getBuffer envBase stBm (.str MIME_BMP)).2 = toAGBR stBm ∧
     (getBuffer envBase stBm (.str MIME_X_MS_BMP)).2 = toAGBR stBm) ∧
    (toAGBR stBm).bitmap = some { bm1 with data := agbrData bm1.data } ∧
    (getBuffer envBase stBm (.str MIME_BMP)).1 =
      .ok (envBase.bmpEncode (compositeBitmapOverBackground envBase (toAGBR stBm))) :=
  getBuffer_bmp_channel_order_side_effect envBase stBm bm1 rfl

/-- Claim C10: getBuffer dispatches on the lowercased target string — for any
target whose lowercasing is a recognized dispatch token, the call behaves
exactly as with the lowercased target — and parseBitmap always records the
decode-time format identifier lowercased. -/
theorem getBuffer_case_insensitive_dispatch (env : Env) (st : JimpState) :
    (∀ s : String, jsToLowerCase s ∈ encodeDispatchTokens →
        getBuffer env st (.str s) = getBuffer env st (.str (jsToLowerCase s))) ∧
    (∀ data : Bytes, ∀ path : Option String, ∀ m : String,
        getMIMEFromBuffer env data path = some m →
        (parseBitmap env st data path).2.originalMime = some (jsToLowerCase m)) := by
  constructor
  · intro s hs
    have hpng : jsToLowerCase "image/png" = "image/png" := by decide
    have hjpeg : jsToLowerCase "image/jpeg" = "image/jpeg" := by decide
    have hbmp : jsToLowerCase "image/bmp" = "image/bmp" := by decide
    have hxms : jsToLowerCase "image/x-ms-bmp" = "image/x-ms-bmp" := by decide
    have htiff : jsToLowerCase "image/tiff" = "image/tiff" := by decide
    simp only [encodeDispatchTokens, List.mem_cons, List.not_mem_nil, or_false,
      MIME_PNG, MIME_JPEG, MIME_BMP, MIME_X_MS_BMP, MIME_TIFF] at hs
    rcases hs with h | h | h | h | h <;>
      simp [getBuffer, AUTO, MIME_PNG, MIME_JPEG, MIME_BMP, MIME_X_MS_BMP,
        MIME_TIFF, h, hpng, hjpeg, hbmp, hxms, htiff]
  · intro data path m hm
    unfold parseBitmap
    simp only [hm, MIME_PNG, MIME_JPEG, MIME_TIFF, MIME_BMP, MIME_X_MS_BMP,
      MIME_GIF]
    by_cases h1 : jsToLowerCase m = "image/png"
    · cases hx : env.pngDecode data <;> simp [h1, hx]
    by_cases h2 : jsToLowerCase m = "image/jpeg"
    · cases hx : env.jpegDecode data with
      | error e => simp [h1, h2, hx]
      | ok bmp =>
        cases hy : env.exifParse data with
        | error e => simp [h1, h2, hx, hy]
        | ok ex => simp [h1, h2, hx, hy, exifRotate_originalMime]
    by_cases h3 : jsToLowerCase m = "image/tiff"
    · cases hx : env.tiffDecode data <;> simp [h1, h2, h3, hx]
    by_cases h4 : jsToLowerCase m = "image/bmp" ∨ jsToLowerCase m = "image/x-ms-bmp"
    · cases hx : env.bmpDecode data <;> simp [h1, h2, h3, h4, hx, fromAGBR]
    by_cases h5 : jsToLowerCase m = "image/gif"
    · cases hx : env.gifDecode data <;> simp [h1, h2, h3, h4, h5, hx]
    · simp [h1, h2, h3, h4, h5]

/-- Claim C10 witness: an uppercase PNG target selects the PNG encoder just
as the lowercase token does, and a decode records the lowercased format. -/
theorem getBuffer_case_insensitive_dispatch_witness :
    getBuffer envBase st0 (.str "IMAGE/PNG") =
      getBuffer envBase st0 (.str (jsToLowerCase "IMAGE/PNG")) ∧
    (parseBitmap envPngSniffFail st0 [0] none).2.originalMime =
      some (jsToLowerCase "image/png") :=
  ⟨(getBuffer_case_insensitive_dispatch envBase st0).1 "IMAGE/PNG" (by decide),
   (getBuffer_case_insensitive_dispatch envPngSniffFail st0).2 [0] none
     "image/png" rfl⟩
